import Mathlib

/-!
Shallow embedding of the command orchestration wrapper implemented in
`src/index.js` of testifysec/action-wrapper, together with theorems about
its components: the reference parser, the artifact fetcher's fallback
logic, extracted-root resolution, environment projection of nested-action
inputs, the witness command builder, the GitOID result extractor, target
mode selection, and the process exit behaviour of the top-level driver.

Machine strings are modelled as Lean `String` / `List Char`; JavaScript
objects used as string maps are modelled as association lists with
overwrite-on-assignment semantics; the filesystem and the network are
modelled as explicit oracle parameters.
-/

/-- Does the first character list start with the second one?  Mirrors
JavaScript `String.prototype.startsWith`. -/
def startsWithL : List Char → List Char → Bool
  | _, [] => true
  | [], _ :: _ => false
  | c :: cs, p :: ps => c == p && startsWithL cs ps

/-- Substring containment on character lists; mirrors the JavaScript idiom
`s.indexOf(sub) !== -1`. -/
def containsL : List Char → List Char → Bool
  | [], sub => sub.isEmpty
  | c :: cs, sub => startsWithL (c :: cs) sub || containsL cs sub

/-- Split a character list at every occurrence of the separator character,
in the manner of JavaScript `String.prototype.split` with a one-character
separator string (so the result always has one more entry than there are
separators, and entries may be empty). -/
def splitOnChar (sep : Char) : List Char → List (List Char)
  | [] => [[]]
  | c :: cs =>
    match splitOnChar sep cs with
    | [] => [[]]
    | h :: t => if c == sep then [] :: h :: t else (c :: h) :: t

/-- String-level wrapper around `splitOnChar`. -/
def splitStr (sep : Char) (s : String) : List String :=
  (splitOnChar sep s.data).map (fun l => String.mk l)

/-- ASCII whitespace, the fragment of JavaScript `trim` relevant here. -/
def isWhite (c : Char) : Bool :=
  c == ' ' || c == '\t' || c == '\n' || c == '\r'

/-- JavaScript `String.prototype.trim` restricted to ASCII whitespace. -/
def trimL (s : List Char) : List Char :=
  ((s.dropWhile isWhite).reverse.dropWhile isWhite).reverse

/-- String-level wrapper around `trimL`. -/
def trimStr (s : String) : String := String.mk (trimL s.data)

/-- The character class of the regular expression `[0-9a-fA-F]` used by
`extractDesiredGitOIDs` in `src/index.js`. -/
def isHexDigit (c : Char) : Bool :=
  let n := c.toNat
  (decide (48 ≤ n) && decide (n ≤ 57)) ||
  (decide (97 ≤ n) && decide (n ≤ 102)) ||
  (decide (65 ≤ n) && decide (n ≤ 70))

/-- Leftmost match of the regular expression `[0-9a-fA-F]\x7b64\x7d` on a
character list: scan left to right and return the first window of exactly
64 consecutive hexadecimal characters, as JavaScript `line.match` does. -/
def findHex64 : List Char → Option (List Char)
  | [] => none
  | c :: cs =>
    let cand := (c :: cs).take 64
    if cand.length == 64 && cand.all isHexDigit then some cand
    else findHex64 cs

/-- Association-map update with JavaScript object-assignment semantics: an
existing key is overwritten in place, a new key is appended. -/
def setKey (env : List (String × String)) (k v : String) : List (String × String) :=
  if env.any (fun p => p.1 == k) then
    env.map (fun p => if p.1 == k then (k, v) else p)
  else env ++ [(k, v)]

/-- Association-map lookup. -/
def getKey (env : List (String × String)) (k : String) : Option String :=
  (env.find? (fun p => p.1 == k)).map (fun p => p.2)

/-- Environment Projector exactly as implemented in `src/index.js`
(`runActionWithWitness`, the input-forwarding block): every parent key
starting with INPUT_ whose lower-cased remainder starts with the literal
pass-through token "input-" has that token stripped, and the value is
re-set under INPUT_ followed by the upper-cased remainder, on top of a
full copy of the parent environment.  Note that this code neither
rewrites hyphens to underscores nor consults any reserved-key set. -/
def projectEnv (env : List (String × String)) : List (String × String) :=
  let nested := env.foldl (fun acc p =>
    if startsWithL p.1.data ("INPUT_".data) then
      let inputName := (p.1.data.drop 6).map Char.toLower
      if startsWithL inputName ("input-".data) then
        setKey acc (String.mk (inputName.drop 6)) p.2
      else acc
    else acc) []
  nested.foldl (fun acc p =>
    setKey acc ("INPUT_" ++ String.mk (p.1.data.map Char.toUpper)) p.2) env

/-- Input-forwarding simulation from `src/test-directly.js`: before the
pass-through check, underscores in the lower-cased remainder are
normalised to hyphens, and when re-injecting, hyphens are rewritten back
to underscores.  This is the behaviour the repository's test asserts. -/
def projectEnvFixed (env : List (String × String)) : List (String × String) :=
  let nested := env.foldl (fun acc p =>
    if startsWithL p.1.data ("INPUT_".data) then
      let inputName := (p.1.data.drop 6).map Char.toLower
      let normalized := inputName.map (fun c => if c == '_' then '-' else c)
      if startsWithL normalized ("input-".data) then
        setKey acc (String.mk (normalized.drop 6)) p.2
      else acc
    else acc) []
  nested.foldl (fun acc p =>
    let envName := (p.1.data.map (fun c => if c == '-' then '_' else c)).map Char.toUpper
    setKey acc ("INPUT_" ++ String.mk envName) p.2) env

/-- The flat options record destructured at the top of `runActionWithWitness`
and `runDirectCommandWithWitness` in `src/index.js`.  String fields hold the
raw input value, with the empty string standing for an unset (falsy) input;
`attestations` and `intermediates` arrive already split on spaces. -/
structure WitnessOptions where
  step : String
  archivistaServer : String
  attestations : List String
  certificate : String
  enableArchivista : Bool
  fulcio : String
  fulcioOidcClientId : String
  fulcioOidcIssuer : String
  fulcioToken : String
  intermediates : List String
  key : String
  outfile : String
  productExcludeGlob : String
  productIncludeGlob : String
  spiffeSocket : String
  timestampServers : String
  trace : String
  enableSigstore : Bool
  exportLink : Bool
  exportSBOM : Bool
  exportSLSA : Bool
  mavenPOM : String
deriving Repr, DecidableEq

/-- Cross-field default propagation performed when the sigstore toggle is on,
as in `src/index.js`: the three fulcio fields receive hardcoded defaults only
when falsy (empty), and the well-known timestamp server is prepended to the
space-separated timestamp-server string unconditionally. -/
def applySigstoreDefaults (o : WitnessOptions) : WitnessOptions :=
  if o.enableSigstore then
    { o with
      fulcio := if o.fulcio = "" then "https://fulcio.sigstore.dev" else o.fulcio
      fulcioOidcClientId :=
        if o.fulcioOidcClientId = "" then "sigstore" else o.fulcioOidcClientId
      fulcioOidcIssuer :=
        if o.fulcioOidcIssuer = "" then "https://oauth2.sigstore.dev/auth" else o.fulcioOidcIssuer
      timestampServers := "https://freetsa.org/tsr " ++ o.timestampServers }
  else o

/-- Repeatable-flag expansion used for attestors and intermediates: each entry
is trimmed and skipped when empty, otherwise emitted as a flag token. -/
def repeatFlags (flag : String) (values : List String) : List String :=
  values.filterMap (fun v =>
    let t := trimStr v
    if t.data.length > 0 then some (flag ++ "=" ++ t) else none)

/-- Timestamp-server flag expansion from `src/index.js`: when the raw string
is truthy it is split on spaces and each trimmed non-empty entry becomes one
repeatable flag. -/
def timestampFlags (ts : String) : List String :=
  if ts = "" then []
  else repeatFlags "--timestamp-servers" (splitStr ' ' ts)

/-- An optional single-value flag: included as name=value only when the value
is truthy (non-empty). -/
def optFlag (flag value : String) : List String :=
  if value = "" then [] else [flag ++ "=" ++ value]

/-- The ordered conditional flag list pushed onto `cmd` after the mode token
in `src/index.js` (identical in `runActionWithWitness` and
`runDirectCommandWithWitness`). -/
def witnessFlags (o : WitnessOptions) : List String :=
  repeatFlags "-a" o.attestations
  ++ (if o.exportLink then ["--attestor-link-export"] else [])
  ++ (if o.exportSBOM then ["--attestor-sbom-export"] else [])
  ++ (if o.exportSLSA then ["--attestor-slsa-export"] else [])
  ++ optFlag "--attestor-maven-pom-path" o.mavenPOM
  ++ optFlag "--certificate" o.certificate
  ++ (if o.enableArchivista then ["--enable-archivista=true"] else [])
  ++ optFlag "--archivista-server" o.archivistaServer
  ++ optFlag "--signer-fulcio-url" o.fulcio
  ++ optFlag "--signer-fulcio-oidc-client-id" o.fulcioOidcClientId
  ++ optFlag "--signer-fulcio-oidc-issuer" o.fulcioOidcIssuer
  ++ optFlag "--signer-fulcio-token" o.fulcioToken
  ++ repeatFlags "-i" o.intermediates
  ++ optFlag "--key" o.key
  ++ optFlag "--attestor-product-exclude-glob" o.productExcludeGlob
  ++ optFlag "--attestor-product-include-glob" o.productIncludeGlob
  ++ optFlag "--spiffe-socket" o.spiffeSocket
  ++ optFlag "-s" o.step
  ++ timestampFlags o.timestampServers
  ++ optFlag "--trace" o.trace
  ++ optFlag "--outfile" o.outfile

/-- The Command Builder: the mode token, the conditional flag list built from
the options after sigstore default propagation, the separator token, and the
target invocation.  In `src/index.js` this sequence (prefixed by the witness
binary name) is joined with spaces and handed to the shell. -/
def buildCmdLine (o : WitnessOptions) (target : List String) : List String :=
  ("run" :: witnessFlags (applySigstoreDefaults o)) ++ ["--"] ++ target

/-- The full argv assembled in `src/index.js`: the witness binary followed by
the built command line. -/
def runArray (o : WitnessOptions) (target : List String) : List String :=
  "witness" :: buildCmdLine o target

/-- Reference Parser from `src/index.js` (`parseActionRef`): split on the at
sign and fail unless the split gives exactly two parts.  The code checks only
the part count, never that the parts are non-empty. -/
def parseActionRef (refString : String) : Except String (String × String) :=
  match splitOnChar '@' refString.data with
  | [a, b] => Except.ok (String.mk a, String.mk b)
  | _ => Except.error "Invalid action-ref format. Expected owner-slash-repo@ref"

/-- Outcome of one download-and-extract attempt against a URL, as observed by
the catch block of `downloadAndExtractAction`: success, a failure carrying an
HTTP response (`error.response` set, with its status), or any other failure
(network error, extraction error) without a response object. -/
inductive DlOutcome
  | success
  | httpFailure (status : Nat)
  | netFailure
deriving Repr, DecidableEq

/-- Primary archive URL for a tag-like ref. -/
def tagUrl (repo refName : String) : String :=
  "https://github.com/" ++ repo ++ "/archive/refs/tags/" ++ refName ++ ".zip"

/-- Archive URL on the branch (heads) path. -/
def headsUrl (repo refName : String) : String :=
  "https://github.com/" ++ repo ++ "/archive/refs/heads/" ++ refName ++ ".zip"

/-- Download phase of `downloadAndExtractAction` in `src/index.js`, with the
network modelled as an oracle from URL to outcome.  The second component
records the URLs attempted, in order.  A ref is classified tag-like when it
contains no slash; the branch-path retry happens only when the first failure
carries an HTTP response and the classification was tag-like; every other
failure, and any failure of the retry itself, propagates. -/
def fetchArchive (dl : String → DlOutcome) (repo refName : String) :
    Except String Unit × List String :=
  let isTag := !(refName.data.contains '/')
  let zipUrl := if isTag then tagUrl repo refName else headsUrl repo refName
  match dl zipUrl with
  | DlOutcome.success => (Except.ok (), [zipUrl])
  | DlOutcome.httpFailure status =>
    if isTag then
      let altZipUrl := headsUrl repo refName
      match dl altZipUrl with
      | DlOutcome.success => (Except.ok (), [zipUrl, altZipUrl])
      | _ => (Except.error "Download failed", [zipUrl, altZipUrl])
    else (Except.error ("Download failed with status " ++ toString status), [zipUrl])
  | DlOutcome.netFailure => (Except.error "Download failed", [zipUrl])

/-- Extracted-root resolution from `downloadAndExtractAction`: the temp
directory contents are modelled as a list of (name, isDirectory) entries.
If an entry with the conventional repo-ref name exists it is returned
(matching `fs.existsSync`); otherwise, when the directory holds exactly one
entry and that entry is a directory, that entry is returned; otherwise the
fetch fails. -/
def resolveRoot (repoName refName : String) (entries : List (String × Bool)) :
    Except String String :=
  let extractedFolder := repoName ++ "-" ++ refName
  if entries.any (fun e => e.1 == extractedFolder) then Except.ok extractedFolder
  else
    match entries with
    | [(n, true)] => Except.ok n
    | _ => Except.error ("Extracted folder " ++ extractedFolder ++
        " not found and could not determine alternative.")

/-- Filesystem facts about a downloaded action directory that
`runActionWithWitness` consults before executing: which manifest files
exist, the parsed runs.main entry (none when the field is missing), whether
the entry file exists, and whether a package.json is present. -/
structure ActionDirFS where
  hasActionYml : Bool
  hasActionYaml : Bool
  manifestMain : Option String
  entryFileExists : Bool
  hasPackageJson : Bool
deriving Repr, DecidableEq

/-- The effectful prefix of `runActionWithWitness` in `src/index.js`, up to
and including command construction: manifest lookup, entry-point checks, the
dependency-installation step, then the built command line.  The npm install
call (`exec.exec` with default options) rejects on a non-zero exit code and
nothing catches that rejection, so a failed install is a fatal error that
prevents command construction; `npmOk` is the oracle for its outcome.
The environment projection step is modelled separately by `projectEnv`. -/
def runActionPipeline (fsx : ActionDirFS) (npmOk : Bool) (o : WitnessOptions) :
    Except String (List String) :=
  if !(fsx.hasActionYml || fsx.hasActionYaml) then
    Except.error "Neither action.yml nor action.yaml found"
  else
    match fsx.manifestMain with
    | none => Except.error "Entry point (runs.main) not defined in action metadata"
    | some entry =>
      if !fsx.entryFileExists then Except.error "Entry file does not exist."
      else if fsx.hasPackageJson && !npmOk then Except.error "npm install failed"
      else Except.ok (runArray o ["node", entry])

/-- The two execution modes of the orchestrator. -/
inductive TargetMode
  | wrappedAction (actionRef : String)
  | directCmd (command : String)
deriving Repr, DecidableEq

/-- Target selection from the top of `run()` in `src/index.js`: a truthy
action-ref wins (the command input is never consulted in that case), an
otherwise truthy command selects direct mode, and when both are falsy the
run fails. -/
def selectTarget (actionRef directCommand : String) : Except String TargetMode :=
  if actionRef ≠ "" then Except.ok (TargetMode.wrappedAction actionRef)
  else if directCommand ≠ "" then Except.ok (TargetMode.directCmd directCommand)
  else Except.error "Either action-ref or command input must be provided"

/-- The marker substring the Result Extractor requires on a line. -/
def markerChars : List Char := "Stored in archivista as ".data

/-- Result Extractor from `src/index.js` (`extractDesiredGitOIDs`): split the
captured output into lines; for each line containing the marker substring,
run the 64-hex-character regular expression and push the match, if any. -/
def extractDesiredGitOIDs (output : String) : List String :=
  (splitStr '\n' output).foldl (fun acc line =>
    if containsL line.data markerChars then
      match findHex64 line.data with
      | some m => acc ++ [String.mk m]
      | none => acc
    else acc) []

/-- Outcome of the body of `run()`'s try block: either it completes, or it
throws an error with a message. -/
inductive RunBody
  | succeeds
  | throwsErr (msg : String)
deriving Repr, DecidableEq

/-- Observable process state: the exit code that `process.exitCode` holds and
the consolidated failure message passed to `core.setFailed`, if any. -/
structure ProcState where
  exitCode : Nat
  failureMsg : Option String
deriving Repr, DecidableEq

/-- Initial process state. -/
def initState : ProcState := { exitCode := 0, failureMsg := none }

/-- The `run` function of `src/index.js`: its catch block consumes any thrown
error, reports it through `core.setFailed` (which sets the process exit code
to 1 and records the consolidated message) and returns normally, so the
promise returned by `run()` resolves in both cases. -/
def runFn : RunBody → ProcState → Except String Unit × ProcState
  | RunBody.succeeds, st => (Except.ok (), st)
  | RunBody.throwsErr m, st =>
      (Except.ok (), { st with
        exitCode := 1
        failureMsg := some ("Wrapper action failed: " ++ m) })

/-- The top-level driver of `src/index.js`: on a resolved promise the then
handler schedules `process.exit(0)` after 500 ms, and on a rejected promise
the catch handler schedules `process.exit(1)`.  Because the 500 ms timer
keeps the event loop alive until it fires, the explicit exit code always
wins over `process.exitCode`. -/
def finalizeExit : Except String Unit × ProcState → Nat
  | (Except.ok _, _) => 0
  | (Except.error _, _) => 1

/-- Exit code of the whole wrapper process for a given run-body outcome. -/
def finalExitCode (b : RunBody) : Nat := finalizeExit (runFn b initState)

/-- The global 30-minute timer of `src/index.js` calls `process.exit(1)` when
it fires. -/
def timeoutExitCode : Nat := 1

/-- Boolean success test on `Except`. -/
def exceptIsOk {ε α : Type} : Except ε α → Bool
  | Except.ok _ => true
  | Except.error _ => false

/-! Helper lemmas about the string utilities. -/

theorem strData_append (a b : String) : (a ++ b).data = a.data ++ b.data := rfl

theorem splitOnChar_ne_nil (sep : Char) (s : List Char) : splitOnChar sep s ≠ [] := by
  cases s with
  | nil => simp [splitOnChar]
  | cons c cs =>
    simp only [splitOnChar]
    cases splitOnChar sep cs with
    | nil => simp
    | cons hd tl => dsimp only; split <;> simp

theorem splitOnChar_eq_single (sep : Char) (s : List Char) (h : s.contains sep = false) :
    splitOnChar sep s = [s] := by
  induction s with
  | nil => rfl
  | cons c cs ih =>
    rw [List.contains_cons, Bool.or_eq_false_iff] at h
    have hc : (c == sep) = false := by
      rw [beq_eq_false_iff_ne]
      intro he
      rw [beq_eq_false_iff_ne] at h
      exact h.1 he.symm
    simp only [splitOnChar, ih h.2]
    simp [hc]

theorem splitOnChar_append (sep : Char) (a b : List Char) (h : a.contains sep = false) :
    splitOnChar sep (a ++ sep :: b) = a :: splitOnChar sep b := by
  induction a with
  | nil =>
    obtain ⟨hd, tl, heq⟩ := List.exists_cons_of_ne_nil (splitOnChar_ne_nil sep b)
    simp only [List.nil_append, splitOnChar, heq]
    simp [heq]
  | cons c cs ih =>
    rw [List.contains_cons, Bool.or_eq_false_iff] at h
    have hc : (c == sep) = false := by
      rw [beq_eq_false_iff_ne]
      intro he
      have h1 := h.1
      rw [beq_eq_false_iff_ne] at h1
      exact h1 he.symm
    conv_lhs => rw [List.cons_append, splitOnChar]
    rw [ih h.2]
    simp [hc]

theorem splitOnChar_length (sep : Char) (s : List Char) :
    (splitOnChar sep s).length = s.count sep + 1 := by
  induction s with
  | nil => simp [splitOnChar]
  | cons c cs ih =>
    obtain ⟨hd, tl, heq⟩ := List.exists_cons_of_ne_nil (splitOnChar_ne_nil sep cs)
    have htl : tl.length = cs.count sep := by
      have : (hd :: tl).length = cs.count sep + 1 := by rw [← heq]; exact ih
      simpa using this
    by_cases hc : c = sep
    · subst hc
      simp only [splitOnChar, heq]
      simp [List.count_cons, htl]
    · have hcb : (c == sep) = false := by rw [beq_eq_false_iff_ne]; exact hc
      have hcb2 : (sep == c) = false := by
        rw [beq_eq_false_iff_ne]; exact fun he => hc he.symm
      simp only [splitOnChar, heq, hcb]
      simp [List.count_cons, hcb2, htl, hc]

theorem repeatFlags_cons_ne_nil (flag v : String) (vs : List String)
    (h : (trimStr v).data.length > 0) : repeatFlags flag (v :: vs) ≠ [] := by
  simp only [repeatFlags, List.filterMap_cons]
  rw [if_pos h]
  simp

theorem timestampFlags_prepend_ne_nil (ts : String) :
    timestampFlags ("https://freetsa.org/tsr " ++ ts) ≠ [] := by
  have h0 : "https://freetsa.org/tsr ".data = "https://freetsa.org/tsr".data ++ [' '] := by
    decide
  have h1 : ("https://freetsa.org/tsr " ++ ts).data
      = "https://freetsa.org/tsr".data ++ ' ' :: ts.data := by
    rw [strData_append, h0, List.append_assoc]
    rfl
  have hne : ("https://freetsa.org/tsr " ++ ts) ≠ "" := by
    intro h
    have h2 : ("https://freetsa.org/tsr " ++ ts).data = [] := by rw [h]
    rw [h1] at h2
    exact absurd (List.append_eq_nil.mp h2).1 (by decide)
  unfold timestampFlags
  rw [if_neg hne]
  unfold splitStr
  rw [h1, splitOnChar_append ' ' _ _ (by decide)]
  rw [List.map_cons]
  exact repeatFlags_cons_ne_nil _ _ _ (by decide)

theorem extractLoop_eq (lines : List String) (acc : List String) :
    lines.foldl (fun acc line =>
      if containsL line.data markerChars then
        match findHex64 line.data with
        | some m => acc ++ [String.mk m]
        | none => acc
      else acc) acc
    = acc ++ lines.filterMap (fun line =>
        if containsL line.data markerChars then (findHex64 line.data).map String.mk
        else none) := by
  induction lines generalizing acc with
  | nil => simp
  | cons l ls ih =>
    simp only [List.foldl_cons, List.filterMap_cons]
    by_cases hm : containsL l.data markerChars
    · cases hf : findHex64 l.data with
      | none => simp [hm, hf, ih]
      | some m => simp [hm, hf, ih]
    · simp [hm, ih]

theorem findHex64_isSome_iff (l : List Char) :
    (findHex64 l).isSome = true
      ↔ ∃ w : List Char, w.length = 64 ∧ w.all isHexDigit = true ∧ w <:+: l := by
  induction l with
  | nil =>
    simp only [findHex64, Option.isSome_none, Bool.false_eq_true, false_iff]
    rintro ⟨w, h1, _, h3⟩
    have : w = [] := by simpa using h3
    subst this
    simp at h1
  | cons c cs ih =>
    simp only [findHex64]
    by_cases h : (((c :: cs).take 64).length == 64 && ((c :: cs).take 64).all isHexDigit) = true
    · rw [if_pos h]
      simp only [Bool.and_eq_true, beq_iff_eq] at h
      simp only [Option.isSome_some, true_iff]
      exact ⟨(c :: cs).take 64, h.1, h.2, (List.take_prefix 64 (c :: cs)).isInfix⟩
    · rw [if_neg h, ih]
      constructor
      · rintro ⟨w, hw1, hw2, hw3⟩
        exact ⟨w, hw1, hw2, List.infix_cons hw3⟩
      · rintro ⟨w, hw1, hw2, hw3⟩
        rcases List.infix_cons_iff.mp hw3 with hpre | hinf
        · exfalso
          apply h
          have hw : w = (c :: cs).take 64 := by
            have := List.prefix_iff_eq_take.mp hpre
            rw [hw1] at this
            exact this
          rw [← hw, hw1]
          simp [hw2]
        · exact ⟨w, hw1, hw2, hinf⟩

/-! Concrete values used by the witness theorems. -/

/-- Concrete options record corresponding to the inputs of the repository's
own test script. -/
def sampleOptions : WitnessOptions :=
  { step := "test-step"
    archivistaServer := ""
    attestations := ["environment", "git"]
    certificate := ""
    enableArchivista := false
    fulcio := ""
    fulcioOidcClientId := ""
    fulcioOidcIssuer := ""
    fulcioToken := ""
    intermediates := []
    key := ""
    outfile := "test-step-attestation.json"
    productExcludeGlob := ""
    productIncludeGlob := ""
    spiffeSocket := ""
    timestampServers := ""
    trace := ""
    enableSigstore := false
    exportLink := false
    exportSBOM := false
    exportSLSA := false
    mavenPOM := "" }

/-- Sample options with the sigstore toggle on. -/
def sampleSigstoreOptions : WitnessOptions := { sampleOptions with enableSigstore := true }

/-! Theorems about the claims. -/

/-- C1 (code bug evidence): evaluated on the repository's own test scenario,
the Environment Projector of `src/index.js` forwards nothing for the
underscored parent key INPUT_INPUT_WHO_TO_GREET (its lower-cased remainder
fails the "input-" check), and even for the hyphenated parent key
INPUT_INPUT-WHO-TO-GREET it re-injects under INPUT_WHO-TO-GREET with the
hyphens preserved, never producing INPUT_WHO_TO_GREET; keys without the
prefix are left untouched.  The simulation in `src/test-directly.js`, which
the repository's test asserts, does produce INPUT_WHO_TO_GREET. -/
theorem c1_env_projector_bug :
    getKey (projectEnv [("INPUT_INPUT_WHO_TO_GREET", "Direct Test User")])
        "INPUT_WHO_TO_GREET" = none
    ∧ getKey (projectEnv [("INPUT_INPUT-WHO-TO-GREET", "World")])
        "INPUT_WHO_TO_GREET" = none
    ∧ getKey (projectEnv [("INPUT_INPUT-WHO-TO-GREET", "World")])
        "INPUT_WHO-TO-GREET" = some "World"
    ∧ getKey (projectEnv [("PATH", "/usr/bin"), ("INPUT_INPUT-WHO-TO-GREET", "World")])
        "PATH" = some "/usr/bin"
    ∧ getKey (projectEnvFixed [("INPUT_INPUT_WHO_TO_GREET", "Direct Test User")])
        "INPUT_WHO_TO_GREET" = some "Direct Test User" := by
  decide

/-- C2 (code bug evidence): when the body of `run()` throws a fatal error --
for instance the missing-target error -- the catch block records the
consolidated failure message and sets the process exit code to 1, but the
promise resolves, the top-level then handler forces `process.exit(0)`, and
the wrapper exits 0 despite the fatal error.  Success also exits 0, and the
global timeout handler exits 1. -/
theorem c2_exit_code_bug :
    finalExitCode RunBody.succeeds = 0
    ∧ finalExitCode
        (RunBody.throwsErr "Either action-ref or command input must be provided") = 0
    ∧ (runFn (RunBody.throwsErr "Either action-ref or command input must be provided")
        initState).2.exitCode = 1
    ∧ (runFn (RunBody.throwsErr "Either action-ref or command input must be provided")
        initState).2.failureMsg
      = some "Wrapper action failed: Either action-ref or command input must be provided"
    ∧ timeoutExitCode = 1 := by
  decide

/-- C3: with the sigstore toggle on, the three fulcio fields receive their
hardcoded defaults exactly when they were unset (a caller-supplied value is
preserved), the well-known timestamp server is prepended unconditionally,
and the resulting timestamp-server flag list is non-empty even when the
original timestamp-server string was empty. -/
theorem c3_sigstore_defaults (o : WitnessOptions) (h : o.enableSigstore = true) :
    ((applySigstoreDefaults o).fulcio
      = if o.fulcio = "" then "https://fulcio.sigstore.dev" else o.fulcio)
    ∧ ((applySigstoreDefaults o).fulcioOidcClientId
      = if o.fulcioOidcClientId = "" then "sigstore" else o.fulcioOidcClientId)
    ∧ ((applySigstoreDefaults o).fulcioOidcIssuer
      = if o.fulcioOidcIssuer = "" then "https://oauth2.sigstore.dev/auth"
        else o.fulcioOidcIssuer)
    ∧ ((applySigstoreDefaults o).timestampServers
      = "https://freetsa.org/tsr " ++ o.timestampServers)
    ∧ timestampFlags (applySigstoreDefaults o).timestampServers ≠ [] := by
  simp only [applySigstoreDefaults, h, if_true]
  refine ⟨trivial, trivial, trivial, trivial, ?_⟩
  exact timestampFlags_prepend_ne_nil o.timestampServers

/-- Witness for C3 at a concrete input: the sample options with the sigstore
toggle on and every dependent field unset. -/
theorem c3_sigstore_defaults_witness :
    ((applySigstoreDefaults sampleSigstoreOptions).fulcio
      = if sampleSigstoreOptions.fulcio = "" then "https://fulcio.sigstore.dev"
        else sampleSigstoreOptions.fulcio)
    ∧ ((applySigstoreDefaults sampleSigstoreOptions).fulcioOidcClientId
      = if sampleSigstoreOptions.fulcioOidcClientId = "" then "sigstore"
        else sampleSigstoreOptions.fulcioOidcClientId)
    ∧ ((applySigstoreDefaults sampleSigstoreOptions).fulcioOidcIssuer
      = if sampleSigstoreOptions.fulcioOidcIssuer = "" then "https://oauth2.sigstore.dev/auth"
        else sampleSigstoreOptions.fulcioOidcIssuer)
    ∧ ((applySigstoreDefaults sampleSigstoreOptions).timestampServers
      = "https://freetsa.org/tsr " ++ sampleSigstoreOptions.timestampServers)
    ∧ timestampFlags (applySigstoreDefaults sampleSigstoreOptions).timestampServers ≠ [] :=
  c3_sigstore_defaults sampleSigstoreOptions rfl

/-- C4: the Result Extractor returns, in line order, one entry per line that
contains the marker substring and a 64-hex-character run (the leftmost such
run on the line); a line with a 64-hex run but no marker contributes nothing,
the result may be empty, and duplicates are kept.  The second part checks the
specification's literal example, the third a marker-free hex line, and the
fourth duplicate preservation. -/
theorem c4_extract_gitoids (out : String) :
    extractDesiredGitOIDs out
      = (splitStr '\n' out).filterMap (fun line =>
          if containsL line.data markerChars then (findHex64 line.data).map String.mk
          else none)
    ∧ (∀ l : List Char, (findHex64 l).isSome = true
        ↔ ∃ w : List Char, w.length = 64 ∧ w.all isHexDigit = true ∧ w <:+: l)
    ∧ extractDesiredGitOIDs
        "foo\nStored in archivista as deadbeefdeadbeefdeadbeefdeadbeefdeadbeefdeadbeefdeadbeefdeadbeef\nbar"
      = ["deadbeefdeadbeefdeadbeefdeadbeefdeadbeefdeadbeefdeadbeefdeadbeef"]
    ∧ extractDesiredGitOIDs
        "deadbeefdeadbeefdeadbeefdeadbeefdeadbeefdeadbeefdeadbeefdeadbeef"
      = []
    ∧ extractDesiredGitOIDs
        "Stored in archivista as deadbeefdeadbeefdeadbeefdeadbeefdeadbeefdeadbeefdeadbeefdeadbeef\nStored in archivista as deadbeefdeadbeefdeadbeefdeadbeefdeadbeefdeadbeefdeadbeefdeadbeef"
      = ["deadbeefdeadbeefdeadbeefdeadbeefdeadbeefdeadbeefdeadbeefdeadbeef",
         "deadbeefdeadbeefdeadbeefdeadbeefdeadbeefdeadbeefdeadbeefdeadbeef"] := by
  refine ⟨?_, findHex64_isSome_iff, by decide, by decide, by decide⟩
  unfold extractDesiredGitOIDs
  rw [extractLoop_eq (splitStr '\n' out) []]
  simp

/-- C5 (counterexample): the Reference Parser accepts "@v1" and returns an
empty owner-repo part, although the claim requires it to fail whenever the
split does not yield two non-empty parts. -/
theorem c5_counterexample : parseActionRef "@v1" = Except.ok ("", "v1") := rfl

/-- C5 (amended): the parser fails exactly when the reference does not
contain exactly one at sign (part emptiness is not checked), and every
string assembled from two at-sign-free parts round-trips losslessly. -/
theorem c5_parse_amended (a b s : String)
    (ha : a.data.contains '@' = false) (hb : b.data.contains '@' = false)
    (hs : s.data.count '@' ≠ 1) :
    parseActionRef (a ++ "@" ++ b) = Except.ok (a, b)
    ∧ exceptIsOk (parseActionRef s) = false := by
  constructor
  · unfold parseActionRef
    have hd : (a ++ "@" ++ b).data = a.data ++ '@' :: b.data := by
      rw [strData_append, strData_append]
      rw [show "@".data = ['@'] from rfl, List.append_assoc]
      rfl
    rw [hd, splitOnChar_append '@' _ _ ha, splitOnChar_eq_single '@' _ hb]
  · unfold parseActionRef
    have hlen := splitOnChar_length '@' s.data
    rcases hsp : splitOnChar '@' s.data with _ | ⟨x, _ | ⟨y, _ | ⟨z, t⟩⟩⟩ <;>
      rw [hsp] at hlen <;> simp at hlen <;> simp [exceptIsOk]
    exact absurd hlen hs

/-- Witness for C5 (amended) at concrete inputs. -/
theorem c5_parse_amended_witness :
    parseActionRef ("owner/repo" ++ "@" ++ "v1.2.3") = Except.ok ("owner/repo", "v1.2.3")
    ∧ exceptIsOk (parseActionRef "owner/repo") = false :=
  c5_parse_amended "owner/repo" "v1.2.3" "owner/repo" (by decide) (by decide) (by decide)

/-- Network oracle on which the primary tag-path download fails without an
HTTP response while every other URL would succeed. -/
def dlTagNetFails : String → DlOutcome := fun u =>
  if u = tagUrl "acme/demo" "v1.2.3" then DlOutcome.netFailure else DlOutcome.success

/-- C6 (counterexample): for the tag-like ref "v1.2.3", a primary download
failure carrying no HTTP response propagates immediately: the branch-path
URL, which would have succeeded, is never attempted, although the claim
says every failure of the primary tag-archive download causes one retry. -/
theorem c6_counterexample :
    (fetchArchive dlTagNetFails "acme/demo" "v1.2.3").2 = [tagUrl "acme/demo" "v1.2.3"]
    ∧ exceptIsOk (fetchArchive dlTagNetFails "acme/demo" "v1.2.3").1 = false
    ∧ dlTagNetFails (headsUrl "acme/demo" "v1.2.3") = DlOutcome.success := by
  decide

/-- C6 (amended): only a primary failure that carries an HTTP response
triggers the single branch-path retry for a tag-like ref, and then the fetch
succeeds exactly when the retry download succeeds; a branch-like ref's
failing download is attempted once on the branch path and propagates with no
retry. -/
theorem c6_fallback_amended (dl : String → DlOutcome) (repo refA refB : String) (status : Nat)
    (htag : refA.data.contains '/' = false)
    (hfail : dl (tagUrl repo refA) = DlOutcome.httpFailure status)
    (hbranch : refB.data.contains '/' = true)
    (hbfail : dl (headsUrl repo refB) ≠ DlOutcome.success) :
    (fetchArchive dl repo refA).2 = [tagUrl repo refA, headsUrl repo refA]
    ∧ (exceptIsOk (fetchArchive dl repo refA).1 = true
        ↔ dl (headsUrl repo refA) = DlOutcome.success)
    ∧ (fetchArchive dl repo refB).2 = [headsUrl repo refB]
    ∧ exceptIsOk (fetchArchive dl repo refB).1 = false := by
  refine ⟨?_, ?_, ?_, ?_⟩ <;>
    simp only [fetchArchive, htag, hbranch, Bool.not_false, Bool.not_true, if_true, if_false,
      hfail]
  · cases dl (headsUrl repo refA) <;> simp
  · cases h : dl (headsUrl repo refA) <;> simp [exceptIsOk, h]
  · cases h : dl (headsUrl repo refB) with
    | success => exact absurd h hbfail
    | httpFailure s => simp [exceptIsOk, h]
    | netFailure => simp [exceptIsOk, h]
  · cases h : dl (headsUrl repo refB) with
    | success => exact absurd h hbfail
    | httpFailure s => simp [exceptIsOk, h]
    | netFailure => simp [exceptIsOk, h]

/-- Network oracle for the C6 witness: the tag-path download of the tag-like
ref fails with a 404 response, the branch-path download of the branch-like
ref fails without a response, and everything else succeeds. -/
def dlMixed : String → DlOutcome := fun u =>
  if u = tagUrl "acme/demo" "v1.2.3" then DlOutcome.httpFailure 404
  else if u = headsUrl "acme/demo" "feature/x" then DlOutcome.netFailure
  else DlOutcome.success

/-- Witness for C6 (amended) at concrete inputs. -/
theorem c6_fallback_amended_witness :
    (fetchArchive dlMixed "acme/demo" "v1.2.3").2
      = [tagUrl "acme/demo" "v1.2.3", headsUrl "acme/demo" "v1.2.3"]
    ∧ (exceptIsOk (fetchArchive dlMixed "acme/demo" "v1.2.3").1 = true
        ↔ dlMixed (headsUrl "acme/demo" "v1.2.3") = DlOutcome.success)
    ∧ (fetchArchive dlMixed "acme/demo" "feature/x").2 = [headsUrl "acme/demo" "feature/x"]
    ∧ exceptIsOk (fetchArchive dlMixed "acme/demo" "feature/x").1 = false :=
  c6_fallback_amended dlMixed "acme/demo" "v1.2.3" "feature/x" 404
    (by decide) (by decide) (by decide) (by decide)

/-- Does the entry list consist of exactly one entry that is a directory? -/
def singleDirEntry : List (String × Bool) → Bool
  | [(_, true)] => true
  | _ => false

/-- C7: root resolution returns the conventional repo-ref entry when present;
otherwise, when exactly one entry exists and it is a directory, that entry;
otherwise it fails. -/
theorem c7_resolve_root (repoName refName n : String)
    (es1 es2 es3 : List (String × Bool))
    (h1 : es1.any (fun e => e.1 == repoName ++ "-" ++ refName) = true)
    (h2 : es2.any (fun e => e.1 == repoName ++ "-" ++ refName) = false)
    (h3 : es2 = [(n, true)])
    (h4 : es3.any (fun e => e.1 == repoName ++ "-" ++ refName) = false)
    (h5 : singleDirEntry es3 = false) :
    resolveRoot repoName refName es1 = Except.ok (repoName ++ "-" ++ refName)
    ∧ resolveRoot repoName refName es2 = Except.ok n
    ∧ exceptIsOk (resolveRoot repoName refName es3) = false := by
  refine ⟨?_, ?_, ?_⟩
  · simp [resolveRoot, h1]
  · subst h3
    simp only [resolveRoot, h2]
    simp
  · simp only [resolveRoot, h4]
    rcases es3 with _ | ⟨⟨m, b⟩, tl⟩
    · simp [exceptIsOk]
    · rcases tl with _ | ⟨p, tl2⟩
      · cases b
        · simp [exceptIsOk]
        · simp [singleDirEntry] at h5
      · simp [exceptIsOk]

/-- Witness for C7 at concrete inputs: the conventional entry, the
single-alternative-directory layout, and a two-directory layout that the
spec's end-to-end scenario requires to fail. -/
theorem c7_resolve_root_witness :
    resolveRoot "demo" "v1.2.3" [("demo-v1.2.3", true)]
      = Except.ok ("demo" ++ "-" ++ "v1.2.3")
    ∧ resolveRoot "demo" "v1.2.3" [("demo-main", true)] = Except.ok "demo-main"
    ∧ exceptIsOk (resolveRoot "demo" "v1.2.3" [("first", true), ("second", true)]) = false :=
  c7_resolve_root "demo" "v1.2.3" "demo-main"
    [("demo-v1.2.3", true)] [("demo-main", true)] [("first", true), ("second", true)]
    (by decide) (by decide) rfl (by decide) (by decide)

/-- Filesystem facts matching a typical downloaded JavaScript action that has
a package.json. -/
def sampleFS : ActionDirFS :=
  { hasActionYml := true
    hasActionYaml := false
    manifestMain := some "index.js"
    entryFileExists := true
    hasPackageJson := true }

/-- Variant filesystem facts for the C8 witness. -/
def sampleFS2 : ActionDirFS :=
  { hasActionYml := false
    hasActionYaml := true
    manifestMain := some "dist/index.js"
    entryFileExists := true
    hasPackageJson := true }

/-- C8 (counterexample): when the nested action has a package.json and npm
install fails, `runActionWithWitness` propagates the rejection as a fatal
error and never builds the witness command, although the claim says the run
proceeds with only a warning. -/
theorem c8_counterexample :
    runActionPipeline sampleFS false sampleOptions = Except.error "npm install failed" := rfl

/-- C8 (amended): a failed dependency installation is fatal: whenever the
manifest and entry-point checks pass, a package.json is present and npm
install fails, the pipeline stops with the npm error and no witness command
is constructed. -/
theorem c8_npm_install_fatal (fsx : ActionDirFS) (npmOk : Bool) (o : WitnessOptions)
    (entry : String)
    (hy : (fsx.hasActionYml || fsx.hasActionYaml) = true)
    (hm : fsx.manifestMain = some entry)
    (he : fsx.entryFileExists = true)
    (hp : fsx.hasPackageJson = true)
    (hn : npmOk = false) :
    runActionPipeline fsx npmOk o = Except.error "npm install failed" := by
  simp [runActionPipeline, hy, hm, he, hp, hn]

/-- Witness for C8 (amended) at a concrete input. -/
theorem c8_npm_install_fatal_witness :
    runActionPipeline sampleFS2 false sampleOptions = Except.error "npm install failed" :=
  c8_npm_install_fatal sampleFS2 false sampleOptions "dist/index.js" rfl rfl rfl rfl rfl

/-- C9: the Command Builder is a pure function -- equal options and equal
target invocations give byte-identical argument sequences -- and every built
sequence begins with the mode token and consists of the conditional flag
list followed by the separator token and the target invocation. -/
theorem c9_builder_deterministic (o o' : WitnessOptions) (t t' : List String)
    (ho : o = o') (ht : t = t') :
    buildCmdLine o t = buildCmdLine o' t'
    ∧ (buildCmdLine o t).head? = some "run"
    ∧ buildCmdLine o t = "run" :: (witnessFlags (applySigstoreDefaults o) ++ "--" :: t) := by
  subst ho
  subst ht
  refine ⟨rfl, rfl, ?_⟩
  simp [buildCmdLine]

/-- Witness for C9 at concrete inputs. -/
theorem c9_builder_deterministic_witness :
    buildCmdLine sampleOptions ["node", "index.js"]
      = buildCmdLine sampleOptions ["node", "index.js"]
    ∧ (buildCmdLine sampleOptions ["node", "index.js"]).head? = some "run"
    ∧ buildCmdLine sampleOptions ["node", "index.js"]
      = "run" :: (witnessFlags (applySigstoreDefaults sampleOptions)
          ++ "--" :: ["node", "index.js"]) :=
  c9_builder_deterministic sampleOptions sampleOptions
    ["node", "index.js"] ["node", "index.js"] rfl rfl

/-- C10: when both an action-ref and a command are supplied the orchestrator
selects wrapped-action mode on the action-ref without failing (the command
input is ignored: the result does not depend on it), and only when neither
is supplied does target selection fail. -/
theorem c10_target_selection (a c : String) (ha : a ≠ "") (_hc : c ≠ "") :
    selectTarget a c = Except.ok (TargetMode.wrappedAction a)
    ∧ exceptIsOk (selectTarget "" "") = false := by
  constructor
  · simp [selectTarget, ha]
  · decide

/-- Witness for C10 at concrete inputs. -/
theorem c10_target_selection_witness :
    selectTarget "actions/hello-world-javascript-action@main" "echo hello"
      = Except.ok (TargetMode.wrappedAction "actions/hello-world-javascript-action@main")
    ∧ exceptIsOk (selectTarget "" "") = false :=
  c10_target_selection "actions/hello-world-javascript-action@main" "echo hello"
    (by decide) (by decide)
